import Mathlib

/-!
Verification of the Davis WeatherLink Live WeeWX driver (`daviswll.py`).

The driver is shallowly embedded: Python numbers are modelled as exact
rationals (`Frac`, an unreduced integer fraction, kernel-computable),
Python values flowing through packets as the sum type `PyVal`
(int / float / str — the descriptor table stores a string in a numeric
slot, so heterogeneity matters), Python `dict`s as association lists with
first-match lookup on most-recently-inserted-first order, and Python
exceptions as `Except` with explicit session state threaded through.
-/

/-- Exact rational numbers with unreduced integer numerator/denominator.
Models CPython floats idealised as exact decimal fractions; all reachable
values have positive denominators. Kept unreduced so every operation is
kernel-computable. -/
structure Frac where
  num : ℤ
  den : ℤ
deriving DecidableEq

/-- Multiplication of fractions (numerators and denominators multiply). -/
def Frac.mul (a b : Frac) : Frac := ⟨a.num * b.num, a.den * b.den⟩

/-- Subtraction of fractions over the common denominator. -/
def Frac.sub (a b : Frac) : Frac := ⟨a.num * b.den - b.num * a.den, a.den * b.den⟩

/-- Embedding of an integer as a fraction. -/
def Frac.ofInt (n : ℤ) : Frac := ⟨n, 1⟩

/-- Python `<` on numbers, by cross multiplication (valid for positive
denominators, which all reachable values have). -/
def Frac.blt (a b : Frac) : Bool := decide (a.num * b.den < b.num * a.den)

/-- Python `==` on numbers, by cross multiplication. -/
def Frac.beq (a b : Frac) : Bool := decide (a.num * b.den = b.num * a.den)

/-- The rational number denoted by a fraction. -/
def Frac.toRat (a : Frac) : ℚ := (a.num : ℚ) / (a.den : ℚ)

/-- A Python value as it appears in the driver's data flow: a JSON number
(int or float), or a string. -/
inductive PyVal where
  | int : ℤ → PyVal
  | float : Frac → PyVal
  | str : String → PyVal
deriving DecidableEq

/-- Python `==` on `PyVal` (numbers compare across int/float; a number
never equals a string). -/
def pyEq : PyVal → PyVal → Bool
  | .int a, .int b => decide (a = b)
  | .int a, .float b => (Frac.ofInt a).beq b
  | .float a, .int b => a.beq (Frac.ofInt b)
  | .float a, .float b => a.beq b
  | .str s, .str t => decide (s = t)
  | _, _ => false

/-- A Python exception as raised by the driver's code paths. -/
inductive PErr where
  | keyError : String → PErr
  | nameError : String → PErr
  | typeError : PErr
deriving DecidableEq

/-- Python string repetition `s * n` (non-positive `n` yields the empty
string, as in CPython). -/
def strRepeat (s : String) (n : ℤ) : String :=
  String.join (List.replicate n.toNat s)

/-- Python `*` on `PyVal`: numeric multiplication, int-by-string sequence
repetition, and `TypeError` on float-by-string or string-by-string. -/
def pyMul : PyVal → PyVal → Except PErr PyVal
  | .int a, .int b => .ok (.int (a * b))
  | .int a, .float b => .ok (.float ((Frac.ofInt a).mul b))
  | .float a, .int b => .ok (.float (a.mul (Frac.ofInt b)))
  | .float a, .float b => .ok (.float (a.mul b))
  | .int a, .str s => .ok (.str (strRepeat s a))
  | .str s, .int a => .ok (.str (strRepeat s a))
  | .float _, .str _ => .error .typeError
  | .str _, .float _ => .error .typeError
  | .str _, .str _ => .error .typeError

/-- `MM_TO_INCH = 0.0393701` from `daviswll.py`. -/
def MM_TO_INCH : Frac := ⟨393701, 10000000⟩

/-- The `rain_collector_scale` table from `daviswll.py`: collector-type
code to inches-per-tick scale factor. -/
def rain_collector_scale : List (PyVal × Frac) :=
  [(.int 1, ⟨1, 100⟩),
   (.int 2, Frac.mul ⟨2, 10⟩ MM_TO_INCH),
   (.int 3, ⟨1, 10⟩),
   (.int 4, Frac.mul ⟨1, 1000⟩ MM_TO_INCH)]

/-- `DavisWLL.get_rain_scale_factor`: `rain_collector_scale.get(collector_type, None)`. -/
def get_rain_scale_factor (collector_type : PyVal) : Option Frac :=
  (rain_collector_scale.find? (fun e => pyEq e.1 collector_type)).map (fun e => e.2)

/-- The driver's mutable session state carried across polls:
`self.annual_rain_scaled` and `self.rain_scale_factor` of `DavisWLL`. -/
structure SessionState where
  annual_rain_scaled : Option Frac
  rain_scale_factor : Frac
deriving DecidableEq

/-- `scale_rain(drvr, data, amt)`: `amt * drvr.rain_scale_factor`.
Raises `TypeError` if `amt` is a string (string times float). -/
def scale_rain (st : SessionState) (amt : PyVal) : Except PErr Frac :=
  match amt with
  | .int n => .ok ((Frac.ofInt n).mul st.rain_scale_factor)
  | .float q => .ok (q.mul st.rain_scale_factor)
  | .str _ => .error .typeError

/-- `track_total_rain(drvr, data, annual_rain)` from `daviswll.py`: scale
the annual total first; on the first call store it and return zero; if it
decreased, reset the stored baseline to 0; return the delta against the
baseline and store the new scaled total. -/
def track_total_rain (st : SessionState) (annual_rain : PyVal) :
    Except PErr (PyVal × SessionState) :=
  match scale_rain st annual_rain with
  | .error e => .error e
  | .ok annual_rain_scaled =>
    let base : Frac :=
      match st.annual_rain_scaled with
      | none => annual_rain_scaled
      | some prev => if annual_rain_scaled.blt prev then Frac.ofInt 0 else prev
    .ok (.float (annual_rain_scaled.sub base),
         { st with annual_rain_scaled := some annual_rain_scaled })

/-- The closed set of derivation functions stored in `packet_info`
(`track_total_rain` or `scale_rain` as function values in the source),
dispatched by `apply_function`. -/
inductive DerivKind where
  | trackTotalRain
  | scaleRain
deriving DecidableEq

/-- The `SensorInfo` namedtuple from `daviswll.py`. -/
structure SensorInfo where
  wllname : String
  factor : PyVal
  metric_type : PyVal
  txid_group : String
  function : Option DerivKind
deriving DecidableEq

/-- The `packet_info` table from `daviswll.py`, in source order. Note the
`txBatteryStatus` row: exactly as in the source, its `factor` slot holds
the string `'battery'` and its `metric_type` slot holds the integer `1`
(the two are swapped relative to every other row). -/
def packet_info : List (String × SensorInfo) :=
  [("outTemp",         ⟨"temp", .int 1, .str "temp", "W", none⟩),
   ("outHumidity",     ⟨"hum", .int 1, .str "temp", "W", none⟩),
   ("dewpoint",        ⟨"dew_point", .int 1, .str "temp", "W", none⟩),
   ("heatindex",       ⟨"heat_index", .int 1, .str "temp", "W", none⟩),
   ("windchill",       ⟨"wind_chill", .int 1, .str "wind", "W", none⟩),
   ("windSpeed",       ⟨"wind_speed_last", .int 1, .str "wind", "W", none⟩),
   ("windDir",         ⟨"wind_dir_last", .int 1, .str "wind", "W", none⟩),
   ("windGust",        ⟨"wind_speed_hi_last_10_min", .int 1, .str "wind", "W", none⟩),
   ("windGustDir",     ⟨"wind_dir_scalar_avg_last_10_min", .int 1, .str "wind", "W", none⟩),
   ("rain",            ⟨"rainfall_year", .int 1, .str "rain", "W", some .trackTotalRain⟩),
   ("rainRate",        ⟨"rain_rate_last", .int 1, .str "rain", "W", some .scaleRain⟩),
   ("radiation",       ⟨"solar_rad", .int 1, .str "solar", "W", none⟩),
   ("UV",              ⟨"uv_index", .int 1, .str "uv", "W", none⟩),
   ("txBatteryStatus", ⟨"trans_battery_flag", .str "battery", .int 1, "W", none⟩),
   ("soilTemp1",       ⟨"temp_1", .int 1, .str "soil1", "S", none⟩),
   ("soilTemp2",       ⟨"temp_2", .int 1, .str "soil2", "S", none⟩),
   ("soilTemp3",       ⟨"temp_3", .int 1, .str "soil3", "S", none⟩),
   ("soilTemp4",       ⟨"temp_4", .int 1, .str "soil4", "S", none⟩),
   ("soilMoist1",      ⟨"moist_soil_1", .int 1, .str "moist1", "S", none⟩),
   ("soilMoist2",      ⟨"moist_soil_2", .int 1, .str "moist2", "S", none⟩),
   ("soilMoist3",      ⟨"moist_soil_3", .int 1, .str "moist3", "S", none⟩),
   ("soilMoist4",      ⟨"moist_soil_4", .int 1, .str "moist4", "S", none⟩),
   ("barometer",       ⟨"bar_sea_level", .int 1, .str "bar", "B", none⟩),
   ("pressure",        ⟨"bar_absolute", .int 1, .str "bar", "B", none⟩),
   ("inTemp",          ⟨"temp_in", .int 1, .str "indoor", "I", none⟩),
   ("inHumidity",      ⟨"hum_in", .int 1, .str "indoor", "I", none⟩),
   ("inDewpoint",      ⟨"dew_point_in", .int 1, .str "indoor", "I", none⟩)]

/-- `self.all_txids = list(range(1,9)) + ['B', 'I']`: the fixed fallback
scan order over transmitter ids/tags. -/
def all_txids : List PyVal :=
  [.int 1, .int 2, .int 3, .int 4, .int 5, .int 6, .int 7, .int 8,
   .str "B", .str "I"]

/-- Lookup in a string-keyed Python dict modelled as an association list
whose most recent insertion comes first. -/
def dict_find (d : List (String × PyVal)) (k : String) : Option PyVal :=
  (d.find? (fun e => e.1 == k)).map (fun e => e.2)

/-- The observation frame `data`: a dict keyed by (transmitter id, raw
field name), most recent insertion first. -/
abbrev Frame := List ((PyVal × String) × PyVal)

/-- Lookup in the observation frame; the transmitter-id component is
compared with Python `==` semantics. -/
def frame_find (data : Frame) (tx : PyVal) (k : String) : Option PyVal :=
  (data.find? (fun e => pyEq e.1.1 tx && e.1.2 == k)).map (fun e => e.2)

/-- The fallback scan of `DavisWLL.get_condition`: return the value of the
first transmitter in the given order that reports the field. -/
def scan_txids (data : Frame) (condition : String) : List PyVal → Option PyVal
  | [] => none
  | tx :: rest =>
    match frame_find data tx condition with
    | some v => some v
    | none => scan_txids data condition rest

/-- `DavisWLL.get_condition`: prefer the value at the assigned transmitter
id; otherwise scan `all_txids` in order; `None` when nothing reports the
field. (The `none` branch of the assignment lookup models the `KeyError`
channel of `self.txids[condition]`; it is unreachable after `init_txids`,
which populates every `wllname` — see `init_txids_total`.) -/
def get_condition (txids : List (String × PyVal)) (data : Frame)
    (condition : String) : Option PyVal :=
  match dict_find txids condition with
  | none => none
  | some t =>
    match frame_find data t condition with
    | some v => some v
    | none => scan_txids data condition all_txids

/-- Accumulating worker for `pySplitWhitespace`. -/
def splitWsAux : List Char → List Char → List String
  | [], [] => []
  | [], cur => [String.mk cur.reverse]
  | c :: rest, cur =>
    if c.isWhitespace then
      match cur with
      | [] => splitWsAux rest []
      | _ :: _ => String.mk cur.reverse :: splitWsAux rest []
    else splitWsAux rest (c :: cur)

/-- Python `str.split()` with no argument: split on runs of whitespace,
dropping empty pieces. -/
def pySplitWhitespace (s : String) : List String := splitWsAux s.data []

/-- Accumulating worker for `pySplitColon`. -/
def splitColonAux : List Char → List Char → List String
  | [], cur => [String.mk cur.reverse]
  | c :: rest, cur =>
    if c = ':' then String.mk cur.reverse :: splitColonAux rest []
    else splitColonAux rest (c :: cur)

/-- Python `str.split(':')`. -/
def pySplitColon (s : String) : List String := splitColonAux s.data []

/-- Python `str.lower()`. -/
def pyLower (s : String) : String := String.mk (s.data.map Char.toLower)

/-- Accumulating decimal-digit reader for `pyIntOfStr`. -/
def digitsToNatAux : List Char → ℕ → Option ℕ
  | [], acc => some acc
  | c :: rest, acc =>
    if c.isDigit then digitsToNatAux rest (acc * 10 + (c.toNat - Char.toNat '0'))
    else none

/-- Reads a non-empty all-digit character list as a natural number. -/
def digitsToNat : List Char → Option ℕ
  | [] => none
  | c :: rest => digitsToNatAux (c :: rest) 0

/-- Python `int(s)` on the tokens produced by `split` (an optional sign
followed by decimal digits; anything else raises `ValueError`, modelled as
`none`). -/
def pyIntOfStr (s : String) : Option ℤ :=
  match s.data with
  | '-' :: rest => (digitsToNat rest).map (fun n => -(n : ℤ))
  | '+' :: rest => (digitsToNat rest).map (fun n => (n : ℤ))
  | l => (digitsToNat l).map (fun n => (n : ℤ))

/-- The `default_txids` dict built in `DavisWLL.init_txids` keyed by the
large-scale group tag. The wildcard returns `none`, modelling the
`KeyError` channel; every `txid_group` in `packet_info` is one of
W/S/B/I, so it never fires. -/
def default_txid_for_group (dw ds : PyVal) : String → Option PyVal
  | "W" => some dw
  | "S" => some ds
  | "B" => some (.str "B")
  | "I" => some (.str "I")
  | _ => none

/-- First loop of `DavisWLL.init_txids`: assign each raw field name its
group's default transmitter id, in `packet_info` order. -/
def set_default_txids (dw ds : PyVal) :
    List (String × SensorInfo) → List (String × PyVal) → List (String × PyVal)
  | [], txids => txids
  | (_, c) :: rest, txids =>
    match default_txid_for_group dw ds c.txid_group with
    | some t => set_default_txids dw ds rest ((c.wllname, t) :: txids)
    | none => set_default_txids dw ds rest txids

/-- Inner loop of `DavisWLL.init_txids` for one parsed mapping token:
assign transmitter `n` to the raw field of every descriptor whose
`metric_type` equals the token's group string, in `packet_info` order. -/
def apply_mapping (mt : String) (n : ℤ) :
    List (String × SensorInfo) → List (String × PyVal) → List (String × PyVal)
  | [], txids => txids
  | (_, c) :: rest, txids =>
    if pyEq c.metric_type (.str mt) then
      apply_mapping mt n rest ((c.wllname, .int n) :: txids)
    else apply_mapping mt n rest txids

/-- One iteration of the token loop in `DavisWLL.init_txids`: a token that
does not split into exactly two parts around `:` with an integer second
part hits the bare `except: continue` and leaves the table unchanged. -/
def apply_token (txids : List (String × PyVal)) (m : String) :
    List (String × PyVal) :=
  match pySplitColon m with
  | [mt, txidStr] =>
    match pyIntOfStr txidStr with
    | some n => apply_mapping mt n packet_info txids
    | none => txids
  | _ => txids

/-- `DavisWLL.init_txids`: defaults for every descriptor first, then
per-group overrides from the lowercased, whitespace-split `mappings`
string (`if mappings:` is false for `None` and for the empty string). -/
def init_txids (dw ds : PyVal) (mappings : Option String) :
    List (String × PyVal) :=
  let t0 := set_default_txids dw ds packet_info []
  match mappings with
  | none => t0
  | some s => if s = "" then t0 else (pySplitWhitespace (pyLower s)).foldl apply_token t0

/-- The configuration stanza handed to `DavisWLL.__init__` (`stn_dict`),
with `none` for keys the host framework did not supply. `poll_interval`
is the numeric value after the source's `float(...)` conversion. -/
structure Config where
  host : Option String
  poll_interval : Option Frac
  weather_transmitter_id : Option ℤ
  soil_transmitter_id : Option ℤ
  mappings : Option String
  hardware : Option String

/-- The constructed driver object: the fields of `DavisWLL` the packet
path reads (`self.txids`, plus the two mutable session-state fields
grouped in `SessionState`). -/
structure DavisWLL where
  host : Option String
  poll_interval : Frac
  hardware : Option String
  txids : List (String × PyVal)
  session : SessionState
deriving DecidableEq

/-- `DavisWLL.__init__`. A missing host is only logged. A poll interval
below 10 reaches `log_err(... .format(poll_interval))`, which reads the
undefined local name `poll_interval` (the attribute is
`self.poll_interval`), so construction raises `NameError` there; nothing
after that line runs. Otherwise the rain baseline starts empty, the rain
scale factor is `get_rain_scale_factor(1)`, and `init_txids` builds the
assignment table. -/
def DavisWLL_init (cfg : Config) : Except PErr DavisWLL :=
  let poll := cfg.poll_interval.getD (Frac.ofInt 10)
  if poll.blt (Frac.ofInt 10) then .error (.nameError "poll_interval")
  else
    let dw : PyVal := .int (cfg.weather_transmitter_id.getD 1)
    let ds : PyVal := .int (cfg.soil_transmitter_id.getD 2)
    .ok { host := cfg.host
          poll_interval := poll
          hardware := cfg.hardware
          txids := init_txids dw ds cfg.mappings
          session :=
            { annual_rain_scaled := none
              rain_scale_factor := (get_rain_scale_factor (.int 1)).getD (Frac.ofInt 0) } }

/-- One condition block of the JSON payload: its key/value pairs in source
order (a Python dict, so keys are unique). -/
abbrev Block := List (String × PyVal)

/-- The JSON payload handed to `DavisWLL.parse_packet` (`json_data`).
`none` components model the corresponding key being absent, which the
source turns into `KeyError`. -/
structure Payload where
  ts : Option PyVal
  conditions : Option (List Block)

/-- `weewx.US`, the unit-system tag constant taken from the host
framework and stored under `usUnits`. -/
def weewx_US : PyVal := .int 1

/-- The `for k, v in c.items()` loop body of `DavisWLL.parse_packet` for
one block whose transmitter id resolved to `tx`: a `rain_size` item whose
`tx` equals the rain metric's assigned transmitter updates the session
rain scale factor (if the looked-up factor is truthy) and is not stored;
every other item is stored into the frame under `(tx, key)`. The
`rainfall_year` assignment lookup raises `KeyError` when absent
(unreachable after `init_txids`). -/
def processItems (txids : List (String × PyVal)) (tx : PyVal) :
    List (String × PyVal) → Frame → SessionState →
    Except (PErr × SessionState) (Frame × SessionState)
  | [], acc, st => .ok (acc, st)
  | (k, v) :: rest, acc, st =>
    if k = "rain_size" then
      match dict_find txids "rainfall_year" with
      | none => .error (.keyError "rainfall_year", st)
      | some rt =>
        if pyEq tx rt then
          let st' :=
            match get_rain_scale_factor v with
            | some r => if r.beq (Frac.ofInt 0) then st else { st with rain_scale_factor := r }
            | none => st
          processItems txids tx rest acc st'
        else processItems txids tx rest (((tx, k), v) :: acc) st
    else processItems txids tx rest (((tx, k), v) :: acc) st

/-- One iteration of the `for c in json_data['conditions']` loop of
`DavisWLL.parse_packet`: read `data_structure_type` (`KeyError` if
absent); resolve the transmitter id for types 1/2 from the block's `txid`
field, fixed tags for types 3/4, and, for any other type code, leave the
Python local `txid` at whatever the previous block bound it to —
`NameError` if no block has bound it yet, since every block is non-empty
(the `data_structure_type` item itself is iterated). Then run the items
loop. -/
def processBlock (txids : List (String × PyVal)) (lastTx : Option PyVal)
    (c : Block) (acc : Frame) (st : SessionState) :
    Except (PErr × SessionState) (Frame × Option PyVal × SessionState) :=
  match dict_find c "data_structure_type" with
  | none => .error (.keyError "data_structure_type", st)
  | some record_type =>
    let newTx : Except (PErr × SessionState) (Option PyVal) :=
      if pyEq record_type (.int 1) || pyEq record_type (.int 2) then
        match dict_find c "txid" with
        | some t => .ok (some t)
        | none => .error (.keyError "txid", st)
      else if pyEq record_type (.int 3) then .ok (some (.str "B"))
      else if pyEq record_type (.int 4) then .ok (some (.str "I"))
      else .ok lastTx
    match newTx with
    | .error e => .error e
    | .ok none => .error (.nameError "txid", st)
    | .ok (some tx) =>
      match processItems txids tx c acc st with
      | .error e => .error e
      | .ok (acc', st') => .ok (acc', some tx, st')

/-- The whole conditions loop: fold `processBlock` over the blocks,
threading the frame, the last bound `txid` local, and the session state. -/
def buildFrame (txids : List (String × PyVal)) :
    List Block → Option PyVal → Frame → SessionState →
    Except (PErr × SessionState) (Frame × SessionState)
  | [], _, acc, st => .ok (acc, st)
  | c :: rest, lastTx, acc, st =>
    match processBlock txids lastTx c acc st with
    | .error e => .error e
    | .ok (acc', tx', st') => buildFrame txids rest tx' acc' st'

/-- Dispatch of the descriptor's stored derivation function
(`info.function(self, data, value)` in the source; neither function reads
`data`). -/
def apply_function (fn : DerivKind) (st : SessionState) (v : PyVal) :
    Except PErr (PyVal × SessionState) :=
  match fn with
  | .trackTotalRain => track_total_rain st v
  | .scaleRain =>
    match scale_rain st v with
    | .ok q => .ok (.float q, st)
    | .error e => .error e

/-- The metric loop of `DavisWLL.parse_packet`: for each descriptor in
table order, resolve the raw field via `get_condition`; when found,
multiply by the descriptor's `factor` slot with Python `*` semantics,
apply the derivation function if any, and emit the result under the
metric name. -/
def emitMetrics (txids : List (String × PyVal)) (data : Frame) :
    List (String × SensorInfo) → SessionState →
    Except (PErr × SessionState) (List (String × PyVal) × SessionState)
  | [], st => .ok ([], st)
  | (metric, info) :: rest, st =>
    match get_condition txids data info.wllname with
    | none => emitMetrics txids data rest st
    | some v0 =>
      match pyMul v0 info.factor with
      | .error e => .error (e, st)
      | .ok v1 =>
        match info.function with
        | none =>
          match emitMetrics txids data rest st with
          | .error e => .error e
          | .ok (l, st2) => .ok ((metric, v1) :: l, st2)
        | some fn =>
          match apply_function fn st v1 with
          | .error e => .error (e, st)
          | .ok (v2, st1) =>
            match emitMetrics txids data rest st1 with
            | .error e => .error e
            | .ok (l, st2) => .ok ((metric, v2) :: l, st2)

/-- `DavisWLL.parse_packet`: start the packet from `json_data['ts']` and
`weewx.US`, build the observation frame from the condition blocks, then
run the metric loop. Errors carry the session state reached so far. -/
def parse_packet (txids : List (String × PyVal)) (st : SessionState)
    (p : Payload) :
    Except (PErr × SessionState) (List (String × PyVal) × SessionState) :=
  match p.ts with
  | none => .error (.keyError "ts", st)
  | some ts =>
    match p.conditions with
    | none => .error (.keyError "conditions", st)
    | some conds =>
      match buildFrame txids conds none [] st with
      | .error e => .error e
      | .ok (data, st1) =>
        match emitMetrics txids data packet_info st1 with
        | .error e => .error e
        | .ok (l, st2) => .ok (("dateTime", ts) :: ("usUnits", weewx_US) :: l, st2)

/-- The result of the HTTP fetch at the top of one iteration of
`DavisWLL.gen_loop_packets`: `requests.get` raised, or returned a body
whose decoded JSON has (`some`) or lacks (`none`) the `data` key. -/
inductive FetchResult where
  | failure
  | success : Option Payload → FetchResult

/-- What one iteration of the polling loop does, as observed from outside
the loop body. -/
inductive LoopOutcome where
  | retryTransport
  | errorLogged : PErr → LoopOutcome
  | emitted : List (String × PyVal) → LoopOutcome
deriving DecidableEq

/-- One iteration of `DavisWLL.gen_loop_packets`. A transport failure is
caught by the inner `try`, logged, and retried after a short sleep. Any
exception from decoding or `parse_packet` is caught by the outer `try`,
logged, and the loop sleeps and continues; a successful parse yields the
packet. No exception escapes the loop body. -/
def loop_iteration (txids : List (String × PyVal)) (st : SessionState)
    (f : FetchResult) : LoopOutcome × SessionState :=
  match f with
  | .failure => (.retryTransport, st)
  | .success none => (.errorLogged (.keyError "data"), st)
  | .success (some p) =>
    match parse_packet txids st p with
    | .ok (pkt, st') => (.emitted pkt, st')
    | .error (e, st') => (.errorLogged e, st')

/-- The first test payload of `test_daviswll.py` (`readings[0]`): one
type-1 weather block from transmitter 5, one type-4 indoor block, one
type-3 barometric block. -/
def test_payload_1 : Payload :=
  { ts := some (.int 1634925911)
    conditions := some
      [[("lsid", .int 330316), ("data_structure_type", .int 1), ("txid", .int 5),
        ("temp", .float ⟨579, 10⟩), ("hum", .float ⟨976, 10⟩),
        ("dew_point", .float ⟨572, 10⟩), ("wet_bulb", .float ⟨575, 10⟩),
        ("heat_index", .float ⟨587, 10⟩), ("wind_chill", .float ⟨579, 10⟩),
        ("thw_index", .float ⟨587, 10⟩), ("thsw_index", .float ⟨644, 10⟩),
        ("wind_speed_last", .float ⟨2, 1⟩), ("wind_dir_last", .int 200),
        ("wind_speed_avg_last_1_min", .float ⟨118, 100⟩),
        ("wind_dir_scalar_avg_last_1_min", .int 360),
        ("wind_speed_avg_last_2_min", .float ⟨15, 10⟩),
        ("wind_dir_scalar_avg_last_2_min", .int 360),
        ("wind_speed_hi_last_2_min", .float ⟨2, 1⟩),
        ("wind_dir_at_hi_speed_last_2_min", .int 360),
        ("wind_speed_avg_last_10_min", .float ⟨156, 100⟩),
        ("wind_dir_scalar_avg_last_10_min", .int 360),
        ("wind_speed_hi_last_10_min", .float ⟨5, 1⟩),
        ("wind_dir_at_hi_speed_last_10_min", .int 180),
        ("rain_size", .int 1), ("rain_rate_last", .int 0), ("rain_rate_hi", .int 0),
        ("rainfall_last_15_min", .int 0), ("rain_rate_hi_last_15_min", .int 0),
        ("rainfall_last_60_min", .int 0), ("rainfall_last_24_hr", .int 44),
        ("rain_storm", .int 73), ("rain_storm_start_at", .int 1634730060),
        ("solar_rad", .int 378), ("uv_index", .float ⟨18, 10⟩),
        ("rx_state", .int 0), ("trans_battery_flag", .int 0),
        ("rainfall_daily", .int 44), ("rainfall_monthly", .int 77),
        ("rainfall_year", .int 986), ("rain_storm_last", .int 4),
        ("rain_storm_last_start_at", .int 1634521081),
        ("rain_storm_last_end_at", .int 1634648461)],
       [("lsid", .int 330311), ("data_structure_type", .int 4),
        ("temp_in", .float ⟨709, 10⟩), ("hum_in", .float ⟨574, 10⟩),
        ("dew_point_in", .float ⟨551, 10⟩), ("heat_index_in", .float ⟨701, 10⟩)],
       [("lsid", .int 330310), ("data_structure_type", .int 3),
        ("bar_sea_level", .float ⟨30074, 1000⟩), ("bar_trend", .float ⟨54, 1000⟩),
        ("bar_absolute", .float ⟨29755, 1000⟩)]] }

/-- The second test payload of `test_daviswll.py` (`readings[1]`): the
annual rain total has advanced from 986 to 987 ticks and
`rain_rate_last` is 2. -/
def test_payload_2 : Payload :=
  { ts := some (.int 1634926765)
    conditions := some
      [[("lsid", .int 330316), ("data_structure_type", .int 1), ("txid", .int 5),
        ("temp", .float ⟨577, 10⟩), ("hum", .float ⟨972, 10⟩),
        ("dew_point", .float ⟨569, 10⟩), ("wet_bulb", .float ⟨572, 10⟩),
        ("heat_index", .float ⟨584, 10⟩), ("wind_chill", .float ⟨577, 10⟩),
        ("thw_index", .float ⟨584, 10⟩), ("thsw_index", .float ⟨645, 10⟩),
        ("wind_speed_last", .float ⟨2, 1⟩), ("wind_dir_last", .int 352),
        ("wind_speed_avg_last_1_min", .float ⟨5, 10⟩),
        ("wind_dir_scalar_avg_last_1_min", .int 360),
        ("wind_speed_avg_last_2_min", .float ⟨93, 100⟩),
        ("wind_dir_scalar_avg_last_2_min", .int 360),
        ("wind_speed_hi_last_2_min", .float ⟨2, 1⟩),
        ("wind_dir_at_hi_speed_last_2_min", .int 360),
        ("wind_speed_avg_last_10_min", .float ⟨156, 100⟩),
        ("wind_dir_scalar_avg_last_10_min", .int 360),
        ("wind_speed_hi_last_10_min", .float ⟨4, 1⟩),
        ("wind_dir_at_hi_speed_last_10_min", .int 15),
        ("rain_size", .int 1), ("rain_rate_last", .int 2), ("rain_rate_hi", .int 0),
        ("rainfall_last_15_min", .int 0), ("rain_rate_hi_last_15_min", .int 0),
        ("rainfall_last_60_min", .int 0), ("rainfall_last_24_hr", .int 44),
        ("rain_storm", .int 73), ("rain_storm_start_at", .int 1634730060),
        ("solar_rad", .int 445), ("uv_index", .float ⟨21, 10⟩),
        ("rx_state", .int 0), ("trans_battery_flag", .int 0),
        ("rainfall_daily", .int 45), ("rainfall_monthly", .int 78),
        ("rainfall_year", .int 987), ("rain_storm_last", .int 4),
        ("rain_storm_last_start_at", .int 1634521081),
        ("rain_storm_last_end_at", .int 1634648461)],
       [("lsid", .int 330311), ("data_structure_type", .int 4),
        ("temp_in", .float ⟨708, 10⟩), ("hum_in", .float ⟨576, 10⟩),
        ("dew_point_in", .float ⟨551, 10⟩), ("heat_index_in", .float ⟨70, 1⟩)],
       [("lsid", .int 330310), ("data_structure_type", .int 3),
        ("bar_sea_level", .float ⟨30076, 1000⟩), ("bar_trend", .float ⟨52, 1000⟩),
        ("bar_absolute", .float ⟨29757, 1000⟩)]] }

/-- The configuration used by `test_daviswll.py::test_packet_handler`. -/
def test_config : Config :=
  { host := some "10.203.213.224"
    poll_interval := none
    weather_transmitter_id := some 5
    soil_transmitter_id := some 5
    mappings := none
    hardware := none }

/-- Construct the driver and parse one payload, returning the emitted
record (the scenario of a first poll; `none` on any raised exception). -/
def first_poll (cfg : Config) (p : Payload) : Option (List (String × PyVal)) :=
  match DavisWLL_init cfg with
  | .error _ => none
  | .ok d =>
    match parse_packet d.txids d.session p with
    | .ok (pkt, _) => some pkt
    | .error _ => none

/-- Construct the driver and parse two payloads in sequence, returning
the two emitted `rain` values and the rain baseline stored after the
first poll (the scenario of `test_daviswll.py`). -/
def two_poll_rain (cfg : Config) (p1 p2 : Payload) :
    Option (Option PyVal × Option Frac × Option PyVal) :=
  match DavisWLL_init cfg with
  | .error _ => none
  | .ok d =>
    match parse_packet d.txids d.session p1 with
    | .error _ => none
    | .ok (r1, st1) =>
      match parse_packet d.txids st1 p2 with
      | .error _ => none
      | .ok (r2, _) =>
        some (dict_find r1 "rain", st1.annual_rain_scaled, dict_find r2 "rain")

/-- The rational number a numeric `PyVal` denotes (`none` for strings). -/
def PyVal.toRatNum : PyVal → Option ℚ
  | .int n => some (n : ℚ)
  | .float q => some q.toRat
  | .str _ => none

/-- Representation invariant: a float's denominator is positive (this
holds of every value built by the embedding's literals and operations). -/
def PyVal.posDen : PyVal → Prop
  | .float q => 0 < q.den
  | _ => True

/-- A mapping token is valid when it splits into exactly two parts around
`:` and the second part parses as an integer; `apply_token` skips
everything else. -/
def token_valid (m : String) : Bool :=
  match pySplitColon m with
  | [_, b] => (pyIntOfStr b).isSome
  | _ => false

theorem Frac.toRat_mul (a b : Frac) : (a.mul b).toRat = a.toRat * b.toRat := by
  unfold Frac.toRat Frac.mul
  push_cast
  rw [div_mul_div_comm]

theorem Frac.toRat_ofInt (n : ℤ) : (Frac.ofInt n).toRat = (n : ℚ) := by
  simp [Frac.ofInt, Frac.toRat]

theorem Frac.toRat_sub (a b : Frac) (ha : (a.den : ℚ) ≠ 0) (hb : (b.den : ℚ) ≠ 0) :
    (a.sub b).toRat = a.toRat - b.toRat := by
  unfold Frac.toRat Frac.sub
  push_cast
  rw [div_sub_div _ _ ha hb]
  ring

theorem Frac.toRat_sub_self (a : Frac) : (a.sub a).toRat = 0 := by
  simp [Frac.sub, Frac.toRat]

theorem Frac.toRat_sub_zero (a : Frac) : (a.sub (Frac.ofInt 0)).toRat = a.toRat := by
  simp [Frac.sub, Frac.ofInt, Frac.toRat]

theorem Frac.blt_iff (a b : Frac) (ha : 0 < a.den) (hb : 0 < b.den) :
    a.blt b = true ↔ a.toRat < b.toRat := by
  unfold Frac.blt Frac.toRat
  rw [decide_eq_true_iff]
  rw [div_lt_div_iff (by exact_mod_cast ha) (by exact_mod_cast hb)]
  exact_mod_cast Iff.rfl

theorem dict_find_cons (a : String) (b : PyVal) (d : List (String × PyVal))
    (k : String) :
    dict_find ((a, b) :: d) k = if a = k then some b else dict_find d k := by
  by_cases h : a = k
  · rw [if_pos h]
    unfold dict_find
    rw [List.find?_cons_of_pos]
    · rfl
    · simpa using h
  · rw [if_neg h]
    unfold dict_find
    rw [List.find?_cons_of_neg]
    simpa using h

theorem dict_find_mem (d : List (String × PyVal)) (k : String) (v : PyVal)
    (h : dict_find d k = some v) : (k, v) ∈ d := by
  induction d with
  | nil => simp [dict_find] at h
  | cons e rest ih =>
    obtain ⟨a, b⟩ := e
    rw [dict_find_cons] at h
    by_cases hk : a = k
    · rw [if_pos hk] at h
      injection h with h2
      subst hk h2
      exact List.mem_cons_self _ _
    · rw [if_neg hk] at h
      exact List.mem_cons_of_mem _ (ih h)

set_option maxRecDepth 100000

deriving instance DecidableEq for Except

/-- C1: the spec claims every emitted metric value, `txBatteryStatus`
included, is the raw value times a numeric scale factor. The code
contradicts this (and its own test, which expects `txBatteryStatus == 0`):
the `txBatteryStatus` descriptor's `factor` slot holds the string
`'battery'`, so the raw `trans_battery_flag` value `0` is multiplied by a
string, and the record emitted for the test suite's first payload carries
the empty string — not a number — under `txBatteryStatus`. -/
theorem txBatteryStatus_emits_string :
    (first_poll test_config test_payload_1).map
        (fun r => dict_find r "txBatteryStatus")
      = some (some (.str "")) := by decide

/-- C2: the spec claims a `poll_interval` below 10 is only logged and
construction completes. In the code the logging line itself reads the
undefined local name `poll_interval` (the attribute is
`self.poll_interval`), so construction raises `NameError` instead of
returning a driver: with `poll_interval = 5` and every other input
well-formed, `__init__` fails. -/
theorem sub_floor_poll_interval_raises :
    DavisWLL_init
        { host := some "10.0.0.1", poll_interval := some ⟨5, 1⟩,
          weather_transmitter_id := none, soil_transmitter_id := none,
          mappings := none, hardware := none }
      = .error (.nameError "poll_interval") := by decide

theorem scale_rain_sem (st : SessionState) (amt : PyVal) (a : ℚ) (s : Frac)
    (ha : PyVal.toRatNum amt = some a) (hs : scale_rain st amt = .ok s) :
    s.toRat = a * st.rain_scale_factor.toRat ∧
    (PyVal.posDen amt → 0 < st.rain_scale_factor.den → 0 < s.den) := by
  cases amt with
  | int n =>
    simp [scale_rain] at hs
    simp [PyVal.toRatNum] at ha
    subst hs
    subst ha
    refine ⟨by rw [Frac.toRat_mul, Frac.toRat_ofInt], fun _ hfd => ?_⟩
    simpa [Frac.mul, Frac.ofInt] using hfd
  | float q =>
    simp [scale_rain] at hs
    simp [PyVal.toRatNum] at ha
    subst hs
    subst ha
    refine ⟨by rw [Frac.toRat_mul], fun hq hfd => ?_⟩
    simp only [PyVal.posDen] at hq
    simpa [Frac.mul] using mul_pos hq hfd
  | str s2 => simp [scale_rain] at hs

/-- C3: with a stored baseline, a new scaled annual total strictly below
it makes `track_total_rain` reset the baseline to 0 before the delta, so
the returned increment equals exactly the scaled new total, and the
stored baseline becomes the scaled new total; and, whenever the raw
annual total is non-negative (and the session state is well-formed, as
every reachable state is), the returned increment is non-negative. -/
theorem rain_rollover_reset_and_nonneg :
    (∀ st amt prev s,
      st.annual_rain_scaled = some prev →
      scale_rain st amt = .ok s →
      s.blt prev = true →
      track_total_rain st amt =
        .ok (.float (s.sub (Frac.ofInt 0)),
             { st with annual_rain_scaled := some s }) ∧
      (s.sub (Frac.ofInt 0)).toRat = s.toRat) ∧
    (∀ st amt a r st2,
      PyVal.toRatNum amt = some a →
      PyVal.posDen amt →
      0 < st.rain_scale_factor.den →
      0 ≤ st.rain_scale_factor.toRat →
      (∀ q, st.annual_rain_scaled = some q → 0 < q.den) →
      0 ≤ a →
      track_total_rain st amt = .ok (.float r, st2) →
      0 ≤ r.toRat) := by
  constructor
  · intro st amt prev s hprev hs hlt
    refine ⟨?_, Frac.toRat_sub_zero s⟩
    unfold track_total_rain
    rw [hs, hprev]
    simp [hlt]
  · intro st amt a r st2 ha hpd hfd hf hbase h0 htrack
    unfold track_total_rain at htrack
    cases hs : scale_rain st amt with
    | error e => rw [hs] at htrack; exact absurd htrack (by simp)
    | ok s =>
      rw [hs] at htrack
      obtain ⟨hsem, hsden⟩ := scale_rain_sem st amt a s ha hs
      have hsden2 : 0 < s.den := hsden hpd hfd
      have hs0 : 0 ≤ s.toRat := by rw [hsem]; exact mul_nonneg h0 hf
      cases hb : st.annual_rain_scaled with
      | none =>
        rw [hb] at htrack
        simp only [Except.ok.injEq, Prod.mk.injEq, PyVal.float.injEq] at htrack
        rw [← htrack.1, Frac.toRat_sub_self]
      | some prev =>
        rw [hb] at htrack
        have hpden := hbase prev hb
        by_cases hlt : s.blt prev = true
        · simp only [hlt, if_true, Except.ok.injEq, Prod.mk.injEq,
            PyVal.float.injEq] at htrack
          rw [← htrack.1, Frac.toRat_sub_zero]
          exact hs0
        · rw [Bool.not_eq_true] at hlt
          simp only [hlt, Bool.false_eq_true, if_false, Except.ok.injEq, Prod.mk.injEq,
            PyVal.float.injEq] at htrack
          rw [← htrack.1,
            Frac.toRat_sub s prev (by exact_mod_cast hsden2.ne') (by exact_mod_cast hpden.ne')]
          have hnotlt : ¬ s.toRat < prev.toRat := by
            rw [← Frac.blt_iff s prev hsden2 hpden]
            simp [hlt]
          linarith [le_of_not_lt hnotlt]

/-- Witness for `rain_rollover_reset_and_nonneg` at concrete inputs:
baseline 9.86, collector factor 0.01, new raw annual total 5. -/
theorem rain_rollover_reset_and_nonneg_witness :
    (track_total_rain ⟨some ⟨986, 100⟩, ⟨1, 100⟩⟩ (.int 5) =
        .ok (.float (Frac.sub ⟨5, 100⟩ (Frac.ofInt 0)),
             { annual_rain_scaled := some ⟨5, 100⟩, rain_scale_factor := ⟨1, 100⟩ }) ∧
      (Frac.sub ⟨5, 100⟩ (Frac.ofInt 0)).toRat = Frac.toRat ⟨5, 100⟩) ∧
    0 ≤ Frac.toRat ⟨5, 100⟩ := by
  constructor
  · exact rain_rollover_reset_and_nonneg.1 ⟨some ⟨986, 100⟩, ⟨1, 100⟩⟩ (.int 5)
      ⟨986, 100⟩ ⟨5, 100⟩ rfl (by decide) (by decide)
  · exact rain_rollover_reset_and_nonneg.2 ⟨some ⟨986, 100⟩, ⟨1, 100⟩⟩ (.int 5) 5
      ⟨5, 100⟩ ⟨some ⟨5, 100⟩, ⟨1, 100⟩⟩ (by norm_num [PyVal.toRatNum])
      (by simp [PyVal.posDen]) (by norm_num) (by norm_num [Frac.toRat])
      (fun q hq => by injection hq with h2; rw [← h2]; norm_num)
      (by norm_num) (by decide)

/-- C4: under collector type 1 (factor 0.01), the first poll establishes
the baseline and reports zero rain, and any later poll whose raw annual
total is `d ≥ 0` ticks above the previous one reports exactly
`d * 0.01` (so trivially within `1e-6` of it — the embedding's rationals
are exact). The concrete conjunct runs the driver on the two test
payloads (`rainfall_year` 986 then 987): the first poll emits rain `0`
and stores baseline `9.86`, the second emits rain `0.01`. -/
theorem collector1_rain_delta :
    (∀ st t d v1 st1 r2 st2,
      st.rain_scale_factor = ⟨1, 100⟩ →
      0 ≤ d →
      track_total_rain st (.int t) = .ok (v1, st1) →
      track_total_rain st1 (.int (t + d)) = .ok (.float r2, st2) →
      r2.toRat = (d : ℚ) * (1 / 100) ∧
      |r2.toRat - (d : ℚ) * (1 / 100)| ≤ 1 / 1000000) ∧
    (two_poll_rain test_config test_payload_1 test_payload_2 =
        some (some (.float ⟨0, 10000⟩), some ⟨986, 100⟩, some (.float ⟨100, 10000⟩)) ∧
      Frac.toRat ⟨0, 10000⟩ = 0 ∧
      Frac.toRat ⟨986, 100⟩ = 986 * (1 / 100) ∧
      Frac.toRat ⟨100, 10000⟩ = 1 * (1 / 100)) := by
  constructor
  · intro st t d v1 st1 r2 st2 hf hd htrack1 htrack2
    simp only [track_total_rain, scale_rain] at htrack1
    rw [hf] at htrack1
    simp only [Frac.mul, Frac.ofInt, mul_one, one_mul, Except.ok.injEq,
      Prod.mk.injEq] at htrack1
    have hst1 : st1 = ⟨some ⟨t, 100⟩, ⟨1, 100⟩⟩ := htrack1.2.symm
    subst hst1
    simp only [track_total_rain, scale_rain] at htrack2
    simp only [Frac.mul, Frac.ofInt, mul_one, one_mul] at htrack2
    have hblt : (⟨t + d, 100⟩ : Frac).blt ⟨t, 100⟩ = false := by
      simp only [Frac.blt, decide_eq_false_iff_not]
      omega
    rw [hblt] at htrack2
    simp only [Bool.false_eq_true, if_false, Except.ok.injEq, Prod.mk.injEq,
      PyVal.float.injEq] at htrack2
    have hr2 : r2 = Frac.sub ⟨t + d, 100⟩ ⟨t, 100⟩ := htrack2.1.symm
    subst hr2
    have hmain : (Frac.sub ⟨t + d, 100⟩ ⟨t, 100⟩).toRat = (d : ℚ) * (1 / 100) := by
      simp only [Frac.sub, Frac.toRat]
      push_cast
      rw [div_eq_iff (by norm_num)]
      ring
    refine ⟨hmain, ?_⟩
    rw [hmain]
    simp
  · refine ⟨by decide, ?_, ?_, ?_⟩ <;> norm_num [Frac.toRat]

/-- Witness for `collector1_rain_delta` at the concrete inputs of the
test scenario: baseline from 986 ticks, then 987 ticks. -/
theorem collector1_rain_delta_witness :
    Frac.toRat ⟨100, 10000⟩ = ((1 : ℤ) : ℚ) * (1 / 100) ∧
    |Frac.toRat ⟨100, 10000⟩ - ((1 : ℤ) : ℚ) * (1 / 100)| ≤ 1 / 1000000 :=
  collector1_rain_delta.1 ⟨none, ⟨1, 100⟩⟩ 986 1 (.float ⟨0, 10000⟩)
    ⟨some ⟨986, 100⟩, ⟨1, 100⟩⟩ ⟨100, 10000⟩ ⟨some ⟨987, 100⟩, ⟨1, 100⟩⟩
    rfl (by norm_num) (by decide) (by decide)

theorem scan_txids_append (data : Frame) (cond : String) (pre : List PyVal)
    (tx : PyVal) (post : List PyVal) (v : PyVal)
    (hpre : ∀ t ∈ pre, frame_find data t cond = none)
    (hhit : frame_find data tx cond = some v) :
    scan_txids data cond (pre ++ tx :: post) = some v := by
  induction pre with
  | nil => simp [scan_txids, hhit]
  | cons a rest ih =>
    have ha := hpre a (List.mem_cons_self _ _)
    simp only [List.cons_append, scan_txids, ha]
    exact ih (fun t2 ht => hpre t2 (List.mem_cons_of_mem _ ht))

theorem emitMetrics_mem_keys (txids : List (String × PyVal)) (data : Frame) :
    ∀ entries st l st2, emitMetrics txids data entries st = .ok (l, st2) →
      ∀ m v, (m, v) ∈ l →
        ∃ i, (m, i) ∈ entries ∧ get_condition txids data i.wllname ≠ none := by
  intro entries
  induction entries with
  | nil =>
    intro st l st2 h m v hm
    simp only [emitMetrics, Except.ok.injEq, Prod.mk.injEq] at h
    rw [← h.1] at hm
    simp at hm
  | cons e rest ih =>
    intro st l st2 h m v hm
    obtain ⟨metric, info⟩ := e
    simp only [emitMetrics] at h
    cases hg : get_condition txids data info.wllname with
    | none =>
      simp only [hg] at h
      obtain ⟨i, hi, hne⟩ := ih st l st2 h m v hm
      exact ⟨i, List.mem_cons_of_mem _ hi, hne⟩
    | some v0 =>
      simp only [hg] at h
      cases hmul : pyMul v0 info.factor with
      | error e2 =>
        simp only [hmul] at h
        exact Except.noConfusion h
      | ok v1 =>
        simp only [hmul] at h
        cases hfn : info.function with
        | none =>
          simp only [hfn] at h
          cases hrec : emitMetrics txids data rest st with
          | error e2 =>
            simp only [hrec] at h
            exact Except.noConfusion h
          | ok pr =>
            obtain ⟨l2, st3⟩ := pr
            simp only [hrec, Except.ok.injEq, Prod.mk.injEq] at h
            rw [← h.1] at hm
            rcases List.mem_cons.mp hm with h1 | h1
            · simp only [Prod.mk.injEq] at h1
              obtain ⟨rfl, rfl⟩ := h1
              exact ⟨info, List.mem_cons_self _ _, by rw [hg]; simp⟩
            · obtain ⟨i, hi, hne⟩ := ih st l2 st3 hrec m v h1
              exact ⟨i, List.mem_cons_of_mem _ hi, hne⟩
        | some fn =>
          simp only [hfn] at h
          cases hap : apply_function fn st v1 with
          | error e2 =>
            simp only [hap] at h
            exact Except.noConfusion h
          | ok pr =>
            obtain ⟨v2, st1⟩ := pr
            simp only [hap] at h
            cases hrec : emitMetrics txids data rest st1 with
            | error e2 =>
              simp only [hrec] at h
              exact Except.noConfusion h
            | ok pr2 =>
              obtain ⟨l2, st3⟩ := pr2
              simp only [hrec, Except.ok.injEq, Prod.mk.injEq] at h
              rw [← h.1] at hm
              rcases List.mem_cons.mp hm with h1 | h1
              · simp only [Prod.mk.injEq] at h1
                obtain ⟨rfl, rfl⟩ := h1
                exact ⟨info, List.mem_cons_self _ _, by rw [hg]; simp⟩
              · obtain ⟨i, hi, hne⟩ := ih st1 l2 st3 hrec m v h1
                exact ⟨i, List.mem_cons_of_mem _ hi, hne⟩

theorem parse_packet_ok_parts (txids : List (String × PyVal)) (st : SessionState)
    (p : Payload) (ts : PyVal) (conds : List Block) (data : Frame)
    (st1 : SessionState) (out : List (String × PyVal)) (st2 : SessionState)
    (hts : p.ts = some ts) (hconds : p.conditions = some conds)
    (hbuild : buildFrame txids conds none [] st = .ok (data, st1))
    (hparse : parse_packet txids st p = .ok (out, st2)) :
    ∃ l, emitMetrics txids data packet_info st1 = .ok (l, st2) ∧
      out = ("dateTime", ts) :: ("usUnits", weewx_US) :: l := by
  simp only [parse_packet, hts, hconds, hbuild] at hparse
  cases hemit : emitMetrics txids data packet_info st1 with
  | error e =>
    simp only [hemit] at hparse
    exact Except.noConfusion hparse
  | ok pr =>
    obtain ⟨l, st3⟩ := pr
    simp only [hemit, Except.ok.injEq, Prod.mk.injEq] at hparse
    refine ⟨l, ?_, hparse.1.symm⟩
    rw [← hparse.2]

/-- C5: assignment resolution. If the frame has a value at (assigned
transmitter, raw field), `get_condition` returns it; otherwise it returns
the first value found scanning the fixed order `all_txids`
(1,…,8, then barometric, then indoor); and a metric whose raw field no
transmitter reports is entirely absent from the parsed output record. -/
theorem assignment_resolution_spec :
    (∀ txids data cond t v,
      dict_find txids cond = some t →
      frame_find data t cond = some v →
      get_condition txids data cond = some v) ∧
    (∀ txids data cond t pre tx post v,
      dict_find txids cond = some t →
      frame_find data t cond = none →
      all_txids = pre ++ tx :: post →
      (∀ t2 ∈ pre, frame_find data t2 cond = none) →
      frame_find data tx cond = some v →
      get_condition txids data cond = some v) ∧
    (∀ txids st p ts conds data st1 out st2 metric,
      p.ts = some ts → p.conditions = some conds →
      buildFrame txids conds none [] st = .ok (data, st1) →
      parse_packet txids st p = .ok (out, st2) →
      metric ≠ "dateTime" → metric ≠ "usUnits" →
      (∀ e ∈ packet_info, e.1 = metric →
        get_condition txids data e.2.wllname = none) →
      dict_find out metric = none) := by
  refine ⟨?_, ?_, ?_⟩
  · intro txids data cond t v ht hv
    simp [get_condition, ht, hv]
  · intro txids data cond t pre tx post v ht hmiss hsplit hpre hhit
    simp only [get_condition, ht, hmiss]
    rw [hsplit]
    exact scan_txids_append data cond pre tx post v hpre hhit
  · intro txids st p ts conds data st1 out st2 metric hts hconds hbuild hparse hd hu hall
    obtain ⟨l, hemit, hout⟩ :=
      parse_packet_ok_parts txids st p ts conds data st1 out st2 hts hconds hbuild hparse
    subst hout
    rw [dict_find_cons, if_neg (Ne.symm hd), dict_find_cons, if_neg (Ne.symm hu)]
    cases hl : dict_find l metric with
    | none => rfl
    | some v =>
      obtain ⟨i, hi, hne⟩ := emitMetrics_mem_keys txids data packet_info st1 l st2 hemit
        metric v (dict_find_mem l metric v hl)
      exact absurd (hall (metric, i) hi rfl) hne

/-- Witness for `assignment_resolution_spec`: a direct hit at the
assigned transmitter; a fallback hit at transmitter 2 after a miss at
assigned transmitter 1; and omission of `soilTemp1` from a parse of a
payload that reports no soil temperature. -/
theorem assignment_resolution_spec_witness :
    get_condition [("temp", .int 5)] [((.int 5, "temp"), .int 7)] "temp"
      = some (.int 7) ∧
    get_condition [("temp", .int 1)] [((.int 2, "temp"), .int 9)] "temp"
      = some (.int 9) ∧
    dict_find [("dateTime", .int 0), ("usUnits", weewx_US), ("outTemp", .int 3)]
      "soilTemp1" = none := by
  refine ⟨?_, ?_, ?_⟩
  · exact assignment_resolution_spec.1 [("temp", .int 5)] [((.int 5, "temp"), .int 7)]
      "temp" (.int 5) (.int 7) (by decide) (by decide)
  · exact assignment_resolution_spec.2.1 [("temp", .int 1)] [((.int 2, "temp"), .int 9)]
      "temp" (.int 1) [.int 1] (.int 2)
      [.int 3, .int 4, .int 5, .int 6, .int 7, .int 8, .str "B", .str "I"] (.int 9)
      (by decide) (by decide) (by decide) (by decide) (by decide)
  · exact assignment_resolution_spec.2.2 (init_txids (.int 1) (.int 2) none)
      ⟨none, ⟨1, 100⟩⟩
      ⟨some (.int 0), some [[("data_structure_type", .int 1), ("txid", .int 1),
        ("temp", .int 3)]]⟩
      (.int 0) [[("data_structure_type", .int 1), ("txid", .int 1), ("temp", .int 3)]]
      [((.int 1, "temp"), .int 3), ((.int 1, "txid"), .int 1),
       ((.int 1, "data_structure_type"), .int 1)]
      ⟨none, ⟨1, 100⟩⟩
      [("dateTime", .int 0), ("usUnits", weewx_US), ("outTemp", .int 3)]
      ⟨none, ⟨1, 100⟩⟩
      "soilTemp1" rfl rfl (by decide) (by decide) (by decide) (by decide) (by decide)

/-- C6: during block parsing, a `rain_size` item whose block resolved to
the rain metric's assigned transmitter updates the session calibration
factor when the collector-size code is in the table (a code outside the
table leaves the factor unchanged), contributes no entry to the
observation frame, and `rain_size` never appears in any parsed output
record. -/
theorem rain_size_interception :
    (∀ txids tx rt v r rest acc st,
      dict_find txids "rainfall_year" = some rt →
      pyEq tx rt = true →
      get_rain_scale_factor v = some r →
      r.beq (Frac.ofInt 0) = false →
      processItems txids tx (("rain_size", v) :: rest) acc st =
        processItems txids tx rest acc { st with rain_scale_factor := r }) ∧
    (∀ txids tx rt v rest acc st,
      dict_find txids "rainfall_year" = some rt →
      pyEq tx rt = true →
      get_rain_scale_factor v = none →
      processItems txids tx (("rain_size", v) :: rest) acc st =
        processItems txids tx rest acc st) ∧
    (∀ txids tx rt,
      dict_find txids "rainfall_year" = some rt →
      pyEq tx rt = true →
      ∀ items acc st out st2,
        processItems txids tx items acc st = .ok (out, st2) →
        out.filter (fun e => e.1.2 == "rain_size") =
          acc.filter (fun e => e.1.2 == "rain_size")) ∧
    (∀ txids st p out st2,
      parse_packet txids st p = .ok (out, st2) →
      dict_find out "rain_size" = none) := by
  refine ⟨?_, ?_, ?_, ?_⟩
  · intro txids tx rt v r rest acc st hrt htx hv hr
    simp [processItems, hrt, htx, hv, hr]
  · intro txids tx rt v rest acc st hrt htx hv
    simp [processItems, hrt, htx, hv]
  · intro txids tx rt hrt htx items
    induction items with
    | nil =>
      intro acc st out st2 h
      simp only [processItems, Except.ok.injEq, Prod.mk.injEq] at h
      rw [← h.1]
    | cons kv rest ih =>
      intro acc st out st2 h
      obtain ⟨k, v2⟩ := kv
      simp only [processItems] at h
      by_cases hk : k = "rain_size"
      · rw [if_pos hk] at h
        simp only [hrt, htx, if_true] at h
        exact ih _ _ _ _ h
      · rw [if_neg hk] at h
        rw [ih _ _ _ _ h, List.filter_cons_of_neg]
        simp [hk]
  · intro txids st p out st2 hparse
    simp only [parse_packet] at hparse
    cases hts : p.ts with
    | none =>
      simp only [hts] at hparse
      exact Except.noConfusion hparse
    | some ts =>
      simp only [hts] at hparse
      cases hc : p.conditions with
      | none =>
        simp only [hc] at hparse
        exact Except.noConfusion hparse
      | some conds =>
        simp only [hc] at hparse
        cases hb : buildFrame txids conds none [] st with
        | error e =>
          simp only [hb] at hparse
          exact Except.noConfusion hparse
        | ok pr =>
          obtain ⟨data, st1⟩ := pr
          simp only [hb] at hparse
          cases hemit : emitMetrics txids data packet_info st1 with
          | error e =>
            simp only [hemit] at hparse
            exact Except.noConfusion hparse
          | ok pr2 =>
            obtain ⟨l, st3⟩ := pr2
            simp only [hemit, Except.ok.injEq, Prod.mk.injEq] at hparse
            rw [← hparse.1]
            rw [dict_find_cons, if_neg (by decide), dict_find_cons, if_neg (by decide)]
            cases hl : dict_find l "rain_size" with
            | none => rfl
            | some v =>
              obtain ⟨i, hi, _⟩ := emitMetrics_mem_keys txids data packet_info st1 l st3
                hemit _ v (dict_find_mem _ _ _ hl)
              have hno : ∀ e ∈ packet_info, e.1 ≠ "rain_size" := by decide
              exact absurd rfl (hno ("rain_size", i) hi)

/-- Witness for `rain_size_interception` at concrete inputs: collector
code 2 updates the factor to `0.2 * MM_TO_INCH`; code 9 is not in the
table and leaves the factor alone; a block with a `rain_size` item adds
no `rain_size` entry to the frame; a parse emits no `rain_size` key. -/
theorem rain_size_interception_witness :
    (processItems [("rainfall_year", .int 1)] (.int 1)
        [("rain_size", .int 2), ("temp", .int 3)] [] ⟨none, ⟨1, 100⟩⟩ =
      processItems [("rainfall_year", .int 1)] (.int 1) [("temp", .int 3)] []
        ⟨none, ⟨787402, 100000000⟩⟩) ∧
    (processItems [("rainfall_year", .int 1)] (.int 1)
        [("rain_size", .int 9), ("temp", .int 3)] [] ⟨none, ⟨1, 100⟩⟩ =
      processItems [("rainfall_year", .int 1)] (.int 1) [("temp", .int 3)] []
        ⟨none, ⟨1, 100⟩⟩) ∧
    (List.filter (fun e => e.1.2 == "rain_size")
        [((PyVal.int 1, "temp"), PyVal.int 3)] =
      List.filter (fun e => e.1.2 == "rain_size") ([] : Frame)) ∧
    dict_find [("dateTime", .int 0), ("usUnits", weewx_US), ("outTemp", .int 3)]
      "rain_size" = none := by
  refine ⟨?_, ?_, ?_, ?_⟩
  · exact rain_size_interception.1 [("rainfall_year", .int 1)] (.int 1) (.int 1)
      (.int 2) ⟨787402, 100000000⟩ [("temp", .int 3)] [] ⟨none, ⟨1, 100⟩⟩
      (by decide) (by decide) (by decide) (by decide)
  · exact rain_size_interception.2.1 [("rainfall_year", .int 1)] (.int 1) (.int 1)
      (.int 9) [("temp", .int 3)] [] ⟨none, ⟨1, 100⟩⟩
      (by decide) (by decide) (by decide)
  · exact rain_size_interception.2.2.1 [("rainfall_year", .int 1)] (.int 1) (.int 1)
      (by decide) (by decide) [("rain_size", .int 1), ("temp", .int 3)] []
      ⟨none, ⟨1, 100⟩⟩ [((PyVal.int 1, "temp"), PyVal.int 3)] ⟨none, ⟨1, 100⟩⟩
      (by decide)
  · exact rain_size_interception.2.2.2 (init_txids (.int 1) (.int 2) none)
      ⟨none, ⟨1, 100⟩⟩
      ⟨some (.int 0), some [[("data_structure_type", .int 1), ("txid", .int 1),
        ("rain_size", .int 1), ("temp", .int 3)]]⟩
      [("dateTime", .int 0), ("usUnits", weewx_US), ("outTemp", .int 3)]
      ⟨none, ⟨1, 100⟩⟩ (by decide)

/-- C7: building the assignment table with `mappings = "rain:1 temp:2"`
assigns transmitter 1 to the raw field of every descriptor in group
"rain" and transmitter 2 to the raw field of every descriptor in group
"temp", overriding the defaults; and any token that does not have the
shape `group:integer` leaves the table exactly as it was. -/
theorem mappings_override_and_skip :
    (∀ e ∈ packet_info, pyEq e.2.metric_type (.str "rain") = true →
      dict_find (init_txids (.int 1) (.int 2) (some "rain:1 temp:2")) e.2.wllname
        = some (.int 1)) ∧
    (∀ e ∈ packet_info, pyEq e.2.metric_type (.str "temp") = true →
      dict_find (init_txids (.int 1) (.int 2) (some "rain:1 temp:2")) e.2.wllname
        = some (.int 2)) ∧
    (∀ txids m, token_valid m = false → apply_token txids m = txids) := by
  refine ⟨by decide, by decide, ?_⟩
  intro txids m hv
  simp only [token_valid] at hv
  simp only [apply_token]
  cases hs : pySplitColon m with
  | nil => rfl
  | cons a rest =>
    cases rest with
    | nil => rfl
    | cons b rest2 =>
      cases rest2 with
      | nil =>
        simp only [hs] at hv
        cases hi : pyIntOfStr b with
        | none => simp [hi]
        | some n => rw [hi] at hv; simp at hv
      | cons c rest3 => rfl

/-- Witness for the token-skipping part of `mappings_override_and_skip`:
the token `temp:x` (non-integer id) leaves a concrete table unchanged. -/
theorem mappings_override_and_skip_witness :
    apply_token [("temp", .int 1)] "temp:x" = [("temp", .int 1)] :=
  mappings_override_and_skip.2.2 [("temp", .int 1)] "temp:x" (by decide)

theorem apply_function_factor (fn : DerivKind) (st : SessionState) (v : PyVal)
    (v2 : PyVal) (st1 : SessionState)
    (h : apply_function fn st v = .ok (v2, st1)) :
    st1.rain_scale_factor = st.rain_scale_factor := by
  cases fn with
  | trackTotalRain =>
    simp only [apply_function, track_total_rain] at h
    cases hs : scale_rain st v with
    | error e =>
      simp only [hs] at h
      exact Except.noConfusion h
    | ok s =>
      simp only [hs, Except.ok.injEq, Prod.mk.injEq] at h
      rw [← h.2]
  | scaleRain =>
    simp only [apply_function] at h
    cases hs : scale_rain st v with
    | error e =>
      simp only [hs] at h
      exact Except.noConfusion h
    | ok s =>
      simp only [hs, Except.ok.injEq, Prod.mk.injEq] at h
      rw [← h.2]

theorem emit_scaleRain_find (txids : List (String × PyVal)) (data : Frame) :
    ∀ entries st l st2 metric info v qv,
      emitMetrics txids data entries st = .ok (l, st2) →
      entries.find? (fun e => e.1 == metric) = some (metric, info) →
      info.function = some .scaleRain →
      info.factor = .int 1 →
      get_condition txids data info.wllname = some v →
      PyVal.toRatNum v = some qv →
      (dict_find l metric).bind PyVal.toRatNum
        = some (qv * st.rain_scale_factor.toRat) := by
  intro entries
  induction entries with
  | nil =>
    intro st l st2 metric info v qv h hfind hfn hfac hv hqv
    simp [List.find?] at hfind
  | cons e rest ih =>
    intro st l st2 metric info v qv h hfind hfn hfac hv hqv
    obtain ⟨metric2, info2⟩ := e
    by_cases hbeq : metric2 = metric
    · subst hbeq
      rw [List.find?_cons_of_pos _ (by simp)] at hfind
      injection hfind with hpair
      injection hpair with hm2 hi2
      subst hi2
      simp only [emitMetrics, hv, hfac, hfn] at h
      cases v with
      | str s2 => simp [PyVal.toRatNum] at hqv
      | int n =>
        simp only [pyMul, apply_function, scale_rain] at h
        cases hrec : emitMetrics txids data rest st with
        | error e2 =>
          simp only [hrec] at h
          exact Except.noConfusion h
        | ok pr =>
          obtain ⟨l2, st3⟩ := pr
          simp only [hrec, Except.ok.injEq, Prod.mk.injEq] at h
          rw [← h.1, dict_find_cons, if_pos rfl]
          simp only [Option.bind, PyVal.toRatNum, Option.some.injEq]
          rw [Frac.toRat_mul, Frac.toRat_ofInt]
          simp only [PyVal.toRatNum, Option.some.injEq] at hqv
          rw [← hqv]
          push_cast
          ring
      | float q =>
        simp only [pyMul, apply_function, scale_rain] at h
        cases hrec : emitMetrics txids data rest st with
        | error e2 =>
          simp only [hrec] at h
          exact Except.noConfusion h
        | ok pr =>
          obtain ⟨l2, st3⟩ := pr
          simp only [hrec, Except.ok.injEq, Prod.mk.injEq] at h
          rw [← h.1, dict_find_cons, if_pos rfl]
          simp only [Option.bind, PyVal.toRatNum, Option.some.injEq]
          rw [Frac.toRat_mul, Frac.toRat_mul, Frac.toRat_ofInt]
          simp only [PyVal.toRatNum, Option.some.injEq] at hqv
          rw [← hqv]
          ring
    · rw [List.find?_cons_of_neg _ (by simp [hbeq])] at hfind
      simp only [emitMetrics] at h
      cases hg : get_condition txids data info2.wllname with
      | none =>
        simp only [hg] at h
        exact ih st l st2 metric info v qv h hfind hfn hfac hv hqv
      | some v0 =>
        simp only [hg] at h
        cases hmul : pyMul v0 info2.factor with
        | error e2 =>
          simp only [hmul] at h
          exact Except.noConfusion h
        | ok v1 =>
          simp only [hmul] at h
          cases hfn2 : info2.function with
          | none =>
            simp only [hfn2] at h
            cases hrec : emitMetrics txids data rest st with
            | error e2 =>
              simp only [hrec] at h
              exact Except.noConfusion h
            | ok pr =>
              obtain ⟨l2, st3⟩ := pr
              simp only [hrec, Except.ok.injEq, Prod.mk.injEq] at h
              rw [← h.1, dict_find_cons, if_neg hbeq]
              exact ih st l2 st3 metric info v qv hrec hfind hfn hfac hv hqv
          | some fn2 =>
            simp only [hfn2] at h
            cases hap : apply_function fn2 st v1 with
            | error e2 =>
              simp only [hap] at h
              exact Except.noConfusion h
            | ok pr =>
              obtain ⟨v3, st4⟩ := pr
              simp only [hap] at h
              cases hrec : emitMetrics txids data rest st4 with
              | error e2 =>
                simp only [hrec] at h
                exact Except.noConfusion h
              | ok pr2 =>
                obtain ⟨l2, st3⟩ := pr2
                simp only [hrec, Except.ok.injEq, Prod.mk.injEq] at h
                rw [← h.1, dict_find_cons, if_neg hbeq]
                rw [ih st4 l2 st3 metric info v qv hrec hfind hfn hfac hv hqv]
                rw [apply_function_factor fn2 st v1 v3 st4 hap]

/-- C8: whenever `rain_rate_last` resolves in the frame to a numeric
value, the parsed record's `rainRate` equals that value times the session
calibration factor in effect after the frame was built — that is, after
any `rain_size` update carried by the same payload. -/
theorem rainRate_scaled_by_current_factor :
    ∀ txids st p ts conds data st1 out st2 v qv,
      p.ts = some ts → p.conditions = some conds →
      buildFrame txids conds none [] st = .ok (data, st1) →
      parse_packet txids st p = .ok (out, st2) →
      get_condition txids data "rain_rate_last" = some v →
      PyVal.toRatNum v = some qv →
      (dict_find out "rainRate").bind PyVal.toRatNum
        = some (qv * st1.rain_scale_factor.toRat) := by
  intro txids st p ts conds data st1 out st2 v qv hts hconds hbuild hparse hv hqv
  obtain ⟨l, hemit, hout⟩ :=
    parse_packet_ok_parts txids st p ts conds data st1 out st2 hts hconds hbuild hparse
  subst hout
  rw [dict_find_cons, if_neg (by decide), dict_find_cons, if_neg (by decide)]
  exact emit_scaleRain_find txids data packet_info st1 l st2 "rainRate"
    ⟨"rain_rate_last", .int 1, .str "rain", "W", some .scaleRain⟩ v qv hemit
    (by decide) rfl rfl hv hqv

/-- Witness for `rainRate_scaled_by_current_factor`: a one-block payload
reporting `rain_rate_last = 2` under collector factor 0.01 emits
`rainRate` denoting `2 * 0.01`. -/
theorem rainRate_scaled_by_current_factor_witness :
    (dict_find [("dateTime", .int 0), ("usUnits", weewx_US),
        ("rainRate", .float ⟨2, 100⟩)] "rainRate").bind PyVal.toRatNum
      = some (((2 : ℤ) : ℚ) * Frac.toRat ⟨1, 100⟩) :=
  rainRate_scaled_by_current_factor (init_txids (.int 1) (.int 2) none)
    ⟨none, ⟨1, 100⟩⟩
    ⟨some (.int 0), some [[("data_structure_type", .int 1), ("txid", .int 1),
      ("rain_rate_last", .int 2)]]⟩
    (.int 0)
    [[("data_structure_type", .int 1), ("txid", .int 1), ("rain_rate_last", .int 2)]]
    [((.int 1, "rain_rate_last"), .int 2), ((.int 1, "txid"), .int 1),
     ((.int 1, "data_structure_type"), .int 1)]
    ⟨none, ⟨1, 100⟩⟩
    [("dateTime", .int 0), ("usUnits", weewx_US), ("rainRate", .float ⟨2, 100⟩)]
    ⟨none, ⟨1, 100⟩⟩ (.int 2) ((2 : ℤ) : ℚ)
    rfl rfl (by decide) (by decide) (by decide) rfl

/-- C9: one iteration of the polling loop on a payload missing `ts` or
`conditions` ends in the caught-and-logged branch with the session state
untouched; the exception does not escape the loop body. -/
theorem malformed_payload_loop_continues :
    ∀ txids st p, p.ts = none ∨ p.conditions = none →
      loop_iteration txids st (.success (some p)) =
        (.errorLogged (if p.ts = none then .keyError "ts"
                       else .keyError "conditions"), st) := by
  intro txids st p h
  cases hts : p.ts with
  | none => simp [loop_iteration, parse_packet, hts]
  | some ts =>
    rcases h with h1 | h2
    · rw [hts] at h1
      exact Option.noConfusion h1
    · simp [loop_iteration, parse_packet, hts, h2]

/-- Witness for `malformed_payload_loop_continues`: a payload with a
timestamp but no `conditions` key is logged and the state kept. -/
theorem malformed_payload_loop_continues_witness :
    loop_iteration [] ⟨none, ⟨1, 100⟩⟩
        (.success (some ⟨some (.int 5), none⟩)) =
      (.errorLogged (if (⟨some (.int 5), none⟩ : Payload).ts = none
          then .keyError "ts" else .keyError "conditions"), ⟨none, ⟨1, 100⟩⟩) :=
  malformed_payload_loop_continues [] ⟨none, ⟨1, 100⟩⟩ ⟨some (.int 5), none⟩
    (Or.inr rfl)

theorem processItems_no_rain_size (txids : List (String × PyVal)) (tx : PyVal) :
    ∀ items acc st, (∀ kv ∈ items, kv.1 ≠ "rain_size") →
      processItems txids tx items acc st =
        .ok ((items.reverse.map (fun kv => ((tx, kv.1), kv.2))) ++ acc, st) := by
  intro items
  induction items with
  | nil =>
    intro acc st h
    simp [processItems]
  | cons kv rest ih =>
    intro acc st h
    obtain ⟨k, v⟩ := kv
    have hk : k ≠ "rain_size" := h (k, v) (List.mem_cons_self _ _)
    simp only [processItems, if_neg hk]
    rw [ih (((tx, k), v) :: acc) st (fun kv2 hm => h kv2 (List.mem_cons_of_mem _ hm))]
    simp

/-- C10: a condition block whose `data_structure_type` is none of 1–4
leaves the Python local `txid` unassigned. If it is the first block,
`parse_packet` raises `NameError` (caught only by the polling loop's
outer handler) with the session state untouched. If a preceding block
bound `txid`, the stray block's key/value pairs are stored under the
preceding block's transmitter id (stated for blocks without a
`rain_size` item; a `rain_size` item would be diverted by the
interception of `rain_size_interception`). -/
theorem unknown_record_type_txid_binding :
    (∀ txids st p ts c rest rt,
      p.ts = some ts → p.conditions = some (c :: rest) →
      dict_find c "data_structure_type" = some rt →
      pyEq rt (.int 1) = false → pyEq rt (.int 2) = false →
      pyEq rt (.int 3) = false → pyEq rt (.int 4) = false →
      parse_packet txids st p = .error (.nameError "txid", st)) ∧
    (∀ txids tx c acc st rt,
      dict_find c "data_structure_type" = some rt →
      pyEq rt (.int 1) = false → pyEq rt (.int 2) = false →
      pyEq rt (.int 3) = false → pyEq rt (.int 4) = false →
      (∀ kv ∈ c, kv.1 ≠ "rain_size") →
      processBlock txids (some tx) c acc st =
        .ok ((c.reverse.map (fun kv => ((tx, kv.1), kv.2))) ++ acc,
             some tx, st)) := by
  constructor
  · intro txids st p ts c rest rt hts hconds hdst h1 h2 h3 h4
    simp only [parse_packet, hts, hconds, buildFrame, processBlock, hdst, h1, h2, h3, h4,
      Bool.or_self, Bool.false_eq_true, if_false]
  · intro txids tx c acc st rt hdst h1 h2 h3 h4 hnr
    simp only [processBlock, hdst, h1, h2, h3, h4, Bool.or_self, Bool.false_eq_true,
      if_false]
    rw [processItems_no_rain_size txids tx c acc st hnr]

/-- Witness for `unknown_record_type_txid_binding`: a first block with
type code 9 makes the parse raise `NameError`; the same stray block after
a block that bound transmitter 7 stores its items under transmitter 7. -/
theorem unknown_record_type_txid_binding_witness :
    parse_packet [] ⟨none, ⟨1, 100⟩⟩
        ⟨some (.int 0), some [[("data_structure_type", .int 9)]]⟩ =
      .error (.nameError "txid", ⟨none, ⟨1, 100⟩⟩) ∧
    processBlock [] (some (.int 7))
        [("data_structure_type", .int 9), ("temp", .int 3)] [] ⟨none, ⟨1, 100⟩⟩ =
      .ok ([((.int 7, "temp"), .int 3), ((.int 7, "data_structure_type"), .int 9)],
           some (.int 7), ⟨none, ⟨1, 100⟩⟩) := by
  constructor
  · exact unknown_record_type_txid_binding.1 [] ⟨none, ⟨1, 100⟩⟩
      ⟨some (.int 0), some [[("data_structure_type", .int 9)]]⟩ (.int 0)
      [("data_structure_type", .int 9)] [] (.int 9) rfl rfl (by decide)
      (by decide) (by decide) (by decide) (by decide)
  · have h := unknown_record_type_txid_binding.2 [] (.int 7)
      [("data_structure_type", .int 9), ("temp", .int 3)] [] ⟨none, ⟨1, 100⟩⟩ (.int 9)
      (by decide) (by decide) (by decide) (by decide) (by decide) (by decide)
    simpa using h

theorem dict_find_isSome_cons (a : String) (b : PyVal) (d : List (String × PyVal))
    (k : String) (h : (dict_find d k).isSome) :
    (dict_find ((a, b) :: d) k).isSome := by
  rw [dict_find_cons]
  by_cases hk : a = k
  · rw [if_pos hk]
    rfl
  · rw [if_neg hk]
    exact h

theorem apply_mapping_isSome (mt : String) (n : ℤ) :
    ∀ entries txids k, (dict_find txids k).isSome →
      (dict_find (apply_mapping mt n entries txids) k).isSome := by
  intro entries
  induction entries with
  | nil =>
    intro txids k h
    exact h
  | cons e rest ih =>
    intro txids k h
    obtain ⟨m2, c⟩ := e
    simp only [apply_mapping]
    by_cases hc : pyEq c.metric_type (.str mt) = true
    · rw [if_pos hc]
      exact ih _ k (dict_find_isSome_cons _ _ _ _ h)
    · rw [if_neg hc]
      exact ih _ k h

theorem apply_token_isSome (txids : List (String × PyVal)) (m k : String)
    (h : (dict_find txids k).isSome) :
    (dict_find (apply_token txids m) k).isSome := by
  unfold apply_token
  split
  · split
    · exact apply_mapping_isSome _ _ packet_info txids k h
    · exact h
  · exact h

theorem foldl_apply_token_isSome (k : String) :
    ∀ (tokens : List String) txids, (dict_find txids k).isSome →
      (dict_find (tokens.foldl apply_token txids) k).isSome := by
  intro tokens
  induction tokens with
  | nil =>
    intro txids h
    exact h
  | cons t rest ih =>
    intro txids h
    exact ih _ (apply_token_isSome txids t k h)

theorem set_default_txids_isSome (dw ds : PyVal) :
    ∀ entries txids k, (dict_find txids k).isSome →
      (dict_find (set_default_txids dw ds entries txids) k).isSome := by
  intro entries
  induction entries with
  | nil =>
    intro txids k h
    exact h
  | cons e rest ih =>
    intro txids k h
    obtain ⟨m2, c⟩ := e
    simp only [set_default_txids]
    cases default_txid_for_group dw ds c.txid_group with
    | none => exact ih _ _ h
    | some t => exact ih _ _ (dict_find_isSome_cons _ _ _ _ h)

theorem set_default_txids_covers (dw ds : PyVal) :
    ∀ entries txids e, e ∈ entries →
      (e.2.txid_group = "W" ∨ e.2.txid_group = "S" ∨
        e.2.txid_group = "B" ∨ e.2.txid_group = "I") →
      (dict_find (set_default_txids dw ds entries txids) e.2.wllname).isSome := by
  intro entries
  induction entries with
  | nil =>
    intro txids e he _
    simp at he
  | cons e0 rest ih =>
    intro txids e he hg
    obtain ⟨m2, c⟩ := e0
    rcases List.mem_cons.mp he with rfl | hmem
    · simp only [set_default_txids]
      cases hd : default_txid_for_group dw ds c.txid_group with
      | none =>
        have : (default_txid_for_group dw ds c.txid_group).isSome := by
          rcases hg with h | h | h | h <;> simp_all [default_txid_for_group]
        rw [hd] at this
        simp at this
      | some t =>
        exact set_default_txids_isSome dw ds rest _ _
          (by rw [dict_find_cons, if_pos rfl]; rfl)
    · simp only [set_default_txids]
      cases default_txid_for_group dw ds c.txid_group with
      | none => exact ih _ e hmem hg
      | some t => exact ih _ e hmem hg

/-- Every raw field name of `packet_info` is a key of the table built by
`init_txids`, whatever the defaults and mappings string: the `KeyError`
channel modelled by the `none` branch of `get_condition` cannot fire on a
constructed driver. -/
theorem init_txids_total (dw ds : PyVal) (mappings : Option String) :
    ∀ e ∈ packet_info, (dict_find (init_txids dw ds mappings) e.2.wllname).isSome := by
  intro e he
  have hg := (show ∀ e2 ∈ packet_info, (e2.2.txid_group = "W" ∨ e2.2.txid_group = "S" ∨
    e2.2.txid_group = "B" ∨ e2.2.txid_group = "I") from by decide) e he
  have hbase := set_default_txids_covers dw ds packet_info [] e he hg
  simp only [init_txids]
  cases mappings with
  | none => exact hbase
  | some s =>
    simp only []
    by_cases hs : s = ""
    · simp only [if_pos hs]
      exact hbase
    · simp only [if_neg hs]
      exact foldl_apply_token_isSome _ _ _ hbase
